import Mathlib

/-!
Shallow embedding of the ONOS charm's reconciliation and credential logic
(`src/charm.py`). Python dicts are modelled as insertion-ordered association
lists (`dict.update` replaces in place or appends; `dict.pop` removes the
entry), the stored application set as a duplicate-free list, and exceptions
as an `Except`-valued result paired with the state at raise time (Python
mutations performed before a raise persist, so each operation returns the
state it left behind together with its outcome).
-/

deriving instance DecidableEq for Except

namespace Onos

/-- `SYS_APP` constant (charm.py line 36). -/
def SYS_APP : String := "org.onosproject.drivers"

/-- `GUI_APP` constant (charm.py line 37). -/
def GUI_APP : String := "org.onosproject.gui2"

/-- `ALL_ROLES` constant (charm.py lines 40-48): the closed Role Catalog. -/
def ALL_ROLES : List String :=
  ["group", "admin", "manager", "viewer", "systembundles", "ssh", "webconsole"]

/-- `ADMIN_USERNAME` (charm.py line 50). -/
def ADMIN_USERNAME : String := "admin"

/-- `ADMIN_GROUP_NAME` (charm.py line 51). -/
def ADMIN_GROUP_NAME : String := "admingroup"

/-- `GUEST_USERNAME` (charm.py line 53). -/
def GUEST_USERNAME : String := "guest"

/-- `GUEST_GROUP_NAME` (charm.py line 54). -/
def GUEST_GROUP_NAME : String := "guestgroup"

/-- One user's attributes: the value dict `{"group": ..., "password": ...}`
stored under a username (charm.py lines 159-173, 423). -/
structure UserData where
  group : String
  password : String
deriving DecidableEq, Repr

/-- `DEFAULT_GROUPS` (charm.py lines 56-59), as an insertion-ordered dict. -/
def DEFAULT_GROUPS : List (String × List String) :=
  [(ADMIN_GROUP_NAME, ALL_ROLES), (GUEST_GROUP_NAME, ["group", "viewer"])]

/-- `ASYNC_LOGGING` constant (charm.py lines 70-73): the async-appender
snippet, including the surrounding newlines of the triple-quoted literal. -/
def ASYNC_LOGGING : String :=
  "\nlog4j.appender.async=org.apache.log4j.AsyncAppender\nlog4j.appender.async.appenders=rolling\n"

/-! ### Python dict model (insertion-ordered association lists) -/

/-- Python `key in d`. -/
def dictContains (d : List (String × β)) (k : String) : Bool :=
  d.any (fun p => p.1 == k)

/-- Python `d[k]` as an optional lookup (first entry with the key). -/
def dictLookup (d : List (String × β)) (k : String) : Option β :=
  (d.find? (fun p => p.1 == k)).map (fun p => p.2)

/-- Python `d.update({k: v})`: replace the value in place if the key is
present, otherwise append the new entry at the end. -/
def dictUpdate (d : List (String × β)) (k : String) (v : β) : List (String × β) :=
  if dictContains d k then d.map (fun p => if p.1 == k then (k, v) else p)
  else d ++ [(k, v)]

/-- Python `d.pop(k)` (the removal part; callers check presence first). -/
def dictPop (d : List (String × β)) (k : String) : List (String × β) :=
  d.filter (fun p => ! (p.1 == k))

/-! ### Errors

Each constructor names one `raise` site of charm.py, carrying the data
interpolated into the exception message (spec taxonomy in parentheses). -/

inductive CharmError where
  /-- `_check_app_exists`: "Application does not exist." (`UnknownApplication`). -/
  | unknownApplication
  /-- `_activate_app`: "application {name} is already active" (`AlreadyActive`). -/
  | alreadyActive (name : String)
  /-- `_deactivate_app`: "application {name} is not active" (`NotActive`). -/
  | notActive (name : String)
  /-- `_add_user`: "group {group} does not exist" (`UnknownGroup`). -/
  | unknownGroup (group : String)
  /-- `_add_user`: "user {username} already exists" (`DuplicateUser`). -/
  | duplicateUser (username : String)
  /-- `_add_user`/`_delete_user`: "... is reserved" (`ReservedIdentifier`). -/
  | reservedUser (username : String)
  /-- `_delete_user`: "user {username} does not exist" (`UnknownUser`). -/
  | unknownUser (username : String)
  /-- `_add_group`/`_delete_group`: "groupname '{g}' is reserved" (`ReservedIdentifier`). -/
  | reservedGroup (groupname : String)
  /-- `_add_group`: "role(s) {non_existing_roles} not exist", carrying the
  full list of roles absent from `ALL_ROLES` (`InvalidRole`). -/
  | invalidRole (missing : List String)
  /-- `_get_apache_karaf_folder_path`: `files[0]` on an empty list raises
  `IndexError`. -/
  | indexError
  /-- `_delete_group`: `groups.pop` on a missing key raises `KeyError`. -/
  | keyError (key : String)
deriving DecidableEq, Repr

/-- Errors of `_parse_roles` (charm.py lines 522-536). -/
inductive ParseError where
  /-- "roles must be a string" (`InvalidInput`). -/
  | invalidInput
  /-- "role '{role}' is not alphanumeric" (`InvalidRole`), carrying the
  first offending token. -/
  | invalidRole (role : String)
deriving DecidableEq, Repr

/-! ### `_parse_roles` -/

/-- A Python action parameter: either a string or some non-string value
(the only distinction `_parse_roles` makes). -/
inductive PyInput where
  | str (s : String)
  | notStr
deriving DecidableEq, Repr

/-- Python `s.split(",")` over the character list: splits at every comma,
keeping empty pieces (so `""` splits to `[""]`). -/
def splitComma : List Char → List (List Char)
  | [] => [[]]
  | c :: rest =>
    if c = ',' then [] :: splitComma rest
    else
      match splitComma rest with
      | [] => [[c]]
      | t :: ts => (c :: t) :: ts

/-- Python `s.isalnum()`: true iff the string is non-empty and every
character is alphanumeric (restricted here to the ASCII range of
`Char.isAlphanum`; the charm's role tokens are ASCII). -/
def pyIsAlnum (s : String) : Bool :=
  ! s.data.isEmpty && s.data.all Char.isAlphanum

/-- `_parse_roles` (charm.py lines 522-536): reject empty or non-string
input, split on commas, reject the first non-alphanumeric token, otherwise
return the token list. Purely syntactic: never consults `ALL_ROLES`. -/
def parseRoles : PyInput → Except ParseError (List String)
  | .notStr => .error .invalidInput
  | .str s =>
    if s = "" then .error .invalidInput
    else
      let roleList := (splitComma s.data).map (fun l => String.mk l)
      match roleList.find? (fun r => ! pyIsAlnum r) with
      | some r => .error (.invalidRole r)
      | none => .ok roleList

/-! ### Charm state and configuration -/

/-- The charm's stored state (`_stored`, charm.py lines 112-118): the
Active-Application Set (a Python `set`, modelled as a duplicate-free list),
the pebble flags, and the user/group dicts. -/
structure CharmState where
  apps : List String
  started : Bool
  ready : Bool
  users : List (String × UserData)
  groups : List (String × List String)
deriving DecidableEq, Repr

/-- The state installed by `_stored.set_default` on first initialization
(charm.py lines 112-118): `apps = {SYS_APP}`, everything else empty/false. -/
def initState : CharmState :=
  { apps := [SYS_APP], started := false, ready := false, users := [], groups := [] }

/-- The configuration keys the modelled operations read. `_check_config`
guarantees the passwords are present before any reconciliation step runs,
so they are plain strings here; `enable-guest` is read with `.get`, which
treats an absent key as false. -/
structure Config where
  adminPassword : String
  guestPassword : String
  enableGuest : Bool
deriving DecidableEq, Repr

/-- The `admin_user` property (charm.py lines 157-164): a one-entry dict
built from the current `admin-password` configuration value. -/
def adminUser (cfg : Config) : String × UserData :=
  (ADMIN_USERNAME, { group := ADMIN_GROUP_NAME, password := cfg.adminPassword })

/-- The `guest_user` property (charm.py lines 166-173). -/
def guestUser (cfg : Config) : String × UserData :=
  (GUEST_USERNAME, { group := GUEST_GROUP_NAME, password := cfg.guestPassword })

/-! ### Managed-filesystem discovery -/

/-- One entry of the `onos_container.list_files` result: its name and
whether its type is `FileType.DIRECTORY`. -/
structure FileInfo where
  name : String
  isDirectory : Bool
deriving DecidableEq, Repr

/-- `_get_apache_karaf_folder_path` (charm.py lines 512-520). `listing` is
the container's reply to `list_files(ROOT_FOLDER, pattern="apache-karaf-*")`.
The comprehension keeps the names of the directory entries; `files[0]`
raises `IndexError` when that list is empty. -/
def getApacheKarafFolderPath (listing : List FileInfo) : Except CharmError String :=
  match (listing.filter (fun f => f.isDirectory)).map (fun f => f.name) with
  | [] => .error .indexError
  | f :: _ => .ok f

/-! ### Credentials rendering (`USERS_TEMPLATE`, charm.py lines 61-67)

Jinja2 with default options: block tags emit nothing, loop bodies keep
their trailing newlines, and the template's own final newline is stripped
(`keep_trailing_newline=False`). -/

/-- Concatenation of the strings a template loop emits, one per item. -/
def strConcat : List String → String
  | [] => ""
  | s :: rest => s ++ strConcat rest

/-- The line emitted for one user: `{{user}} = {{userdata.password}},_g_:{{userdata.group}}`
plus the newline that follows it in the template body. -/
def userLine (u : String) (d : UserData) : String :=
  u ++ " = " ++ d.password ++ ",_g_:" ++ d.group ++ "\n"

/-- The line emitted for one group:
`_g_\:{{group}} = {{",".join(roles)}}` plus its newline. -/
def groupLine (g : String) (roles : List String) : String :=
  "_g_\\:" ++ g ++ " = " ++ String.intercalate "," roles ++ "\n"

/-- `Template(USERS_TEMPLATE).render(users=..., groups=...)`: the leading
newline of the triple-quoted literal, the user lines in dict iteration
order, the blank line between the loops, then the group lines. -/
def render (users : List (String × UserData)) (groups : List (String × List String)) : String :=
  "\n" ++ strConcat (users.map (fun p => userLine p.1 p.2))
    ++ "\n\n" ++ strConcat (groups.map (fun p => groupLine p.1 p.2))

/-! ### `_configure_users_and_groups` (charm.py lines 364-377) -/

/-- The user-seeding part of `_configure_users_and_groups` (charm.py lines
366-369): lazily insert the admin user, then — only when `enable-guest` is
set — the guest user. -/
def convergeUsers (cfg : Config) (users : List (String × UserData)) :
    List (String × UserData) :=
  let users1 := if dictContains users ADMIN_USERNAME then users
    else dictUpdate users (adminUser cfg).1 (adminUser cfg).2
  if cfg.enableGuest && ! dictContains users1 GUEST_USERNAME then
    dictUpdate users1 (guestUser cfg).1 (guestUser cfg).2
  else users1

/-- The group-seeding part of `_configure_users_and_groups` (charm.py lines
370-371): insert both default groups, but only when neither is present. -/
def convergeGroups (groups : List (String × List String)) :
    List (String × List String) :=
  if DEFAULT_GROUPS.all (fun p => ! dictContains groups p.1) then
    dictUpdate (dictUpdate groups ADMIN_GROUP_NAME ALL_ROLES)
      GUEST_GROUP_NAME ["group", "viewer"]
  else groups

/-- `_configure_users_and_groups`: resolve the apache-karaf folder first
(its `IndexError` propagates before any mutation), lazily seed the
users and groups, then — when pebble is ready and the folder name is
truthy — push the rendered credentials file. The returned `Option String`
is the pushed content. -/
def configureUsersAndGroups (listing : List FileInfo) (cfg : Config) (st : CharmState) :
    Except CharmError (Option String) × CharmState :=
  match getApacheKarafFolderPath listing with
  | .error e => (.error e, st)
  | .ok folder =>
    let users2 := convergeUsers cfg st.users
    let groups1 := convergeGroups st.groups
    let st' := { st with users := users2, groups := groups1 }
    if st.ready && ! (folder == "") then (.ok (some (render users2 groups1)), st')
    else (.ok none, st')

/-! ### `_configure_async_logging` (charm.py lines 393-404)

The content transformation applied to the logging configuration file:
append `ASYNC_LOGGING` unless it is already a substring (Python `in`). -/

/-- The append-unless-present step of `_configure_async_logging`. -/
def asyncLoggingUpdate (content : String) : String :=
  if ASYNC_LOGGING.data <:+: content.data then content else content ++ ASYNC_LOGGING

/-! ### Application activation (charm.py lines 449-469) -/

/-- The HTTP request `_activate_app`/`_deactivate_app` issue when pebble
has started: method, target application, and basic-auth credentials. -/
structure RemoteCall where
  isPost : Bool
  app : String
  authUser : String
  authPassword : String
deriving DecidableEq, Repr

/-- `_activate_app` (charm.py lines 449-458): catalog check, already-active
check, add to the stored set, then — only if started — the remote POST
authenticated as `admin` with the configured `admin-password`. -/
def activateApp (catalog : List String) (cfg : Config) (st : CharmState) (name : String) :
    Except CharmError (Option RemoteCall) × CharmState :=
  if ¬ catalog.contains name then (.error .unknownApplication, st)
  else if st.apps.contains name then (.error (.alreadyActive name), st)
  else
    let st' := { st with apps := st.apps ++ [name] }
    if st.started then
      (.ok (some { isPost := true, app := name, authUser := ADMIN_USERNAME,
                   authPassword := cfg.adminPassword }), st')
    else (.ok none, st')

/-- `_deactivate_app` (charm.py lines 460-469): symmetric, removing from
the stored set and issuing a DELETE. No identifier is special-cased. -/
def deactivateApp (catalog : List String) (cfg : Config) (st : CharmState) (name : String) :
    Except CharmError (Option RemoteCall) × CharmState :=
  if ¬ catalog.contains name then (.error .unknownApplication, st)
  else if ¬ st.apps.contains name then (.error (.notActive name), st)
  else
    let st' := { st with apps := st.apps.erase name }
    if st.started then
      (.ok (some { isPost := false, app := name, authUser := ADMIN_USERNAME,
                   authPassword := cfg.adminPassword }), st')
    else (.ok none, st')

/-! ### Credential-store operations (charm.py lines 416-447)

Each performs its checks, mutates its dict, then re-runs
`_configure_users_and_groups` (whose outcome and pushed content propagate). -/

/-- `_add_user` (charm.py lines 416-424). -/
def addUser (listing : List FileInfo) (cfg : Config) (st : CharmState)
    (username password group : String) : Except CharmError (Option String) × CharmState :=
  if ¬ dictContains st.groups group then (.error (.unknownGroup group), st)
  else if dictContains st.users username then (.error (.duplicateUser username), st)
  else if username = ADMIN_USERNAME ∨ username = GUEST_USERNAME then
    (.error (.reservedUser username), st)
  else
    configureUsersAndGroups listing cfg
      { st with users := dictUpdate st.users username { group := group, password := password } }

/-- `_add_group` (charm.py lines 426-433): reserved-name check first, then
the role check collecting every role absent from `ALL_ROLES`. -/
def addGroup (listing : List FileInfo) (cfg : Config) (st : CharmState)
    (groupname : String) (roles : List String) : Except CharmError (Option String) × CharmState :=
  if groupname = ADMIN_GROUP_NAME ∨ groupname = GUEST_GROUP_NAME then
    (.error (.reservedGroup groupname), st)
  else
    let nonExistingRoles := roles.filter (fun role => ! ALL_ROLES.contains role)
    if ¬ (nonExistingRoles = []) then (.error (.invalidRole nonExistingRoles), st)
    else configureUsersAndGroups listing cfg
      { st with groups := dictUpdate st.groups groupname roles }

/-- `_delete_user` (charm.py lines 435-441). -/
def deleteUser (listing : List FileInfo) (cfg : Config) (st : CharmState)
    (username : String) : Except CharmError (Option String) × CharmState :=
  if ¬ dictContains st.users username then (.error (.unknownUser username), st)
  else if username = ADMIN_USERNAME ∨ username = GUEST_USERNAME then
    (.error (.reservedUser username), st)
  else
    configureUsersAndGroups listing cfg { st with users := dictPop st.users username }

/-- `_delete_group` (charm.py lines 443-447): `groups.pop` raises
`KeyError` when the group is absent. -/
def deleteGroup (listing : List FileInfo) (cfg : Config) (st : CharmState)
    (groupname : String) : Except CharmError (Option String) × CharmState :=
  if groupname = ADMIN_GROUP_NAME ∨ groupname = GUEST_GROUP_NAME then
    (.error (.reservedGroup groupname), st)
  else if ¬ dictContains st.groups groupname then (.error (.keyError groupname), st)
  else
    configureUsersAndGroups listing cfg { st with groups := dictPop st.groups groupname }

/-! ### Substring containment

`strInfix a b` says `a` occurs contiguously inside `b` (the rendered-text
"contains the line" notion of §4.3). -/

/-- `a` is a contiguous substring of `b`. -/
def strInfix (a b : String) : Prop := ∃ p q : String, b = p ++ a ++ q

/-! ### Concrete fixtures used by counterexamples and witnesses -/

/-- A configuration with `enable-guest=false`. -/
def cfg0 : Config := { adminPassword := "pass1", guestPassword := "gpass1", enableGuest := false }

/-- A configuration with `enable-guest=true` and a changed admin password. -/
def cfg1 : Config := { adminPassword := "pass2", guestPassword := "gpass2", enableGuest := true }

/-- A container listing in which the apache-karaf directory is discoverable. -/
def listing1 : List FileInfo := [{ name := "apache-karaf-4.2.8", isDirectory := true }]

/-- A state in which the reserved identities have been seeded and pebble is
ready (as after a successful reconciliation pass). -/
def seededState : CharmState :=
  { apps := [SYS_APP], started := true, ready := true,
    users := [adminUser cfg0, guestUser cfg0], groups := DEFAULT_GROUPS }

end Onos

namespace Onos

/-! ## Helper lemmas -/

/-- String append is associative. -/
theorem str_append_assoc (a b c : String) : a ++ b ++ c = a ++ (b ++ c) := by
  apply String.ext
  simp [List.append_assoc]

/-- The empty string is a left identity for append. -/
theorem str_empty_append (a : String) : "" ++ a = a := by
  apply String.ext
  simp

/-- The string a template loop emits for one of its items occurs
contiguously in the loop's whole output. -/
theorem strConcat_infix_of_mem {α : Type} (f : α → String) (l : List α) (x : α)
    (hx : x ∈ l) : ∃ p q, strConcat (l.map f) = p ++ f x ++ q := by
  induction l with
  | nil => cases hx
  | cons a t ih =>
    rcases List.mem_cons.mp hx with rfl | hx
    · exact ⟨"", strConcat (t.map f), by
        simp [strConcat, str_empty_append, str_append_assoc]⟩
    · obtain ⟨p, q, hpq⟩ := ih hx
      exact ⟨f a ++ p, q, by simp [strConcat, hpq, str_append_assoc]⟩

/-- Looking up a key present in the first part of an appended dict ignores
the second part. -/
theorem dictLookup_append_of_contains {β : Type} (d e : List (String × β)) (k : String)
    (h : dictContains d k = true) : dictLookup (d ++ e) k = dictLookup d k := by
  induction d with
  | nil => simp [dictContains] at h
  | cons a t ih =>
    by_cases ha : (a.1 == k) = true
    · simp [dictLookup, List.find?_cons, ha]
    · have h' : dictContains t k = true := by
        simpa [dictContains, ha] using h
      simpa [dictLookup, List.find?_cons, ha] using ih h'

/-- `configureUsersAndGroups` never touches the Active-Application Set. -/
theorem configure_apps_frame (listing : List FileInfo) (cfg : Config) (st : CharmState) :
    (configureUsersAndGroups listing cfg st).2.apps = st.apps := by
  unfold configureUsersAndGroups
  cases getApacheKarafFolderPath listing with
  | error e => rfl
  | ok folder => dsimp only; split <;> rfl

/-! ## Claims -/

/-- C2: when `list_files(ROOT_FOLDER, pattern="apache-karaf-*")` returns no
directory entry, the users/groups convergence step does not skip silently:
`files[0]` in `_get_apache_karaf_folder_path` raises `IndexError`, which
propagates out of `_configure_users_and_groups` (before any mutation). The
code contradicts its own guard `if self.pebble_ready and apache_karaf_folder:`,
which only makes sense for a falsy (absent) folder, so this is a bug in the
code rather than in the spec. -/
theorem c2_missing_folder_raises (cfg : Config) (st : CharmState) :
    configureUsersAndGroups [] cfg st = (.error .indexError, st) := rfl

/-- C5: for every application identifier absent from the Application
Catalog, both `_activate_app` and `_deactivate_app` fail with
`UnknownApplication` and leave the whole charm state (in particular the
Active-Application Set) unchanged. -/
theorem c5_unknown_application (catalog : List String) (cfg : Config) (st : CharmState)
    (name : String) (h : name ∉ catalog) :
    activateApp catalog cfg st name = (.error .unknownApplication, st) ∧
    deactivateApp catalog cfg st name = (.error .unknownApplication, st) := by
  constructor <;> simp [activateApp, deactivateApp, h]

/-- Witness for C5 at a concrete catalog and identifier. -/
theorem c5_witness :
    activateApp [SYS_APP] cfg0 initState GUI_APP = (.error .unknownApplication, initState) ∧
    deactivateApp [SYS_APP] cfg0 initState GUI_APP = (.error .unknownApplication, initState) :=
  c5_unknown_application [SYS_APP] cfg0 initState GUI_APP (by decide)

/-- C7: the async-logging augmentation step leaves content that already
contains the snippet unchanged byte-for-byte, and applying the step twice
yields the same content as applying it once. -/
theorem c7_async_logging_idempotent (c : String) :
    (ASYNC_LOGGING.data <:+: c.data → asyncLoggingUpdate c = c) ∧
    asyncLoggingUpdate (asyncLoggingUpdate c) = asyncLoggingUpdate c := by
  constructor
  · intro h
    simp [asyncLoggingUpdate, h]
  · by_cases h : ASYNC_LOGGING.data <:+: c.data
    · simp [asyncLoggingUpdate, h]
    · have h2 : ASYNC_LOGGING.data <:+: c.data ++ ASYNC_LOGGING.data :=
        (List.suffix_append _ _).isInfix
      simp [asyncLoggingUpdate, h, h2, String.data_append]

/-- Witness for C7: content that already holds the snippet (the snippet
itself) is left unchanged, and the step is idempotent there. -/
theorem c7_witness :
    asyncLoggingUpdate ASYNC_LOGGING = ASYNC_LOGGING ∧
    asyncLoggingUpdate (asyncLoggingUpdate ASYNC_LOGGING) = asyncLoggingUpdate ASYNC_LOGGING :=
  ⟨(c7_async_logging_idempotent ASYNC_LOGGING).1 (List.infix_refl _),
    (c7_async_logging_idempotent ASYNC_LOGGING).2⟩

/-- C1 counterexample: from the freshly initialized state, with the
mandatory identifier present in the Application Catalog, `_deactivate_app`
called with that identifier succeeds and removes it from the
Active-Application Set — the claimed invariant fails. -/
theorem c1_counterexample :
    SYS_APP ∈ initState.apps ∧
    (deactivateApp [SYS_APP] cfg0 initState SYS_APP).1 = .ok none ∧
    SYS_APP ∉ (deactivateApp [SYS_APP] cfg0 initState SYS_APP).2.apps := by decide

/-- C1 amended: the mandatory identifier is seeded at first initialization;
activate/deactivate of any other identifier and every credential-store
operation preserve its membership; but `_deactivate_app` called with the
mandatory identifier itself (when it is in the catalog and active) succeeds
and removes it — no guard protects it. -/
theorem c1_sys_app_amended :
    SYS_APP ∈ initState.apps ∧
    (∀ catalog cfg st name, name ≠ SYS_APP → SYS_APP ∈ st.apps →
      SYS_APP ∈ (activateApp catalog cfg st name).2.apps ∧
      SYS_APP ∈ (deactivateApp catalog cfg st name).2.apps) ∧
    (∀ listing cfg st u p g roles,
      (addUser listing cfg st u p g).2.apps = st.apps ∧
      (addGroup listing cfg st g roles).2.apps = st.apps ∧
      (deleteUser listing cfg st u).2.apps = st.apps ∧
      (deleteGroup listing cfg st g).2.apps = st.apps) ∧
    (∀ catalog cfg st, SYS_APP ∈ catalog → SYS_APP ∈ st.apps →
      (∃ r, (deactivateApp catalog cfg st SYS_APP).1 = .ok r) ∧
      (deactivateApp catalog cfg st SYS_APP).2.apps = st.apps.erase SYS_APP) := by
  refine ⟨by decide, ?_, ?_, ?_⟩
  · intro catalog cfg st name hne hmem
    constructor
    · unfold activateApp
      split
      · exact hmem
      split
      · exact hmem
      split <;> exact List.mem_append_left _ hmem
    · unfold deactivateApp
      split
      · exact hmem
      split
      · exact hmem
      split <;> exact (List.mem_erase_of_ne (Ne.symm hne)).mpr hmem
  · intro listing cfg st u p g roles
    refine ⟨?_, ?_, ?_, ?_⟩
    · unfold addUser
      repeat' split
      all_goals first | rfl | exact configure_apps_frame _ _ _
    · unfold addGroup
      dsimp only
      repeat' split
      all_goals first | rfl | exact configure_apps_frame _ _ _
    · unfold deleteUser
      repeat' split
      all_goals first | rfl | exact configure_apps_frame _ _ _
    · unfold deleteGroup
      repeat' split
      all_goals first | rfl | exact configure_apps_frame _ _ _
  · intro catalog cfg st hcat hmem
    constructor
    · unfold deactivateApp
      simp [hcat, hmem]
      split <;> exact ⟨_, rfl⟩
    · unfold deactivateApp
      simp [hcat, hmem]
      split <;> rfl

/-- Witness for C1's amended theorem at concrete inputs: deactivating the
GUI application preserves the mandatory identifier, `_add_group` leaves
the set untouched, and deactivating the mandatory identifier removes it. -/
theorem c1_amended_witness :
    SYS_APP ∈ (deactivateApp [SYS_APP, GUI_APP] cfg0 seededState GUI_APP).2.apps ∧
    (addGroup listing1 cfg0 seededState "qa" ["viewer"]).2.apps = seededState.apps ∧
    (deactivateApp [SYS_APP] cfg0 seededState SYS_APP).2.apps
      = seededState.apps.erase SYS_APP := by
  refine ⟨?_, ?_, ?_⟩
  · exact ((c1_sys_app_amended.2.1 [SYS_APP, GUI_APP] cfg0 seededState GUI_APP
      (by decide) (by decide)).2)
  · exact (c1_sys_app_amended.2.2.1 listing1 cfg0 seededState "u" "p" "qa" ["viewer"]).2.1
  · exact (c1_sys_app_amended.2.2.2 [SYS_APP] cfg0 seededState (by decide) (by decide)).2

/-- C4: once the reserved identities are seeded, `_add_user` with a
reserved username (and an existing group) fails with `DuplicateUser`, and
`_delete_user` with a reserved username fails with `ReservedIdentifier`;
in every case the state — in particular the user map — is unchanged. -/
theorem c4_reserved_identity_protection (listing : List FileInfo) (cfg : Config)
    (st : CharmState) (p g : String)
    (hadm : dictContains st.users ADMIN_USERNAME = true)
    (hgst : dictContains st.users GUEST_USERNAME = true)
    (hgrp : dictContains st.groups g = true) :
    addUser listing cfg st ADMIN_USERNAME p g = (.error (.duplicateUser ADMIN_USERNAME), st) ∧
    addUser listing cfg st GUEST_USERNAME p g = (.error (.duplicateUser GUEST_USERNAME), st) ∧
    deleteUser listing cfg st ADMIN_USERNAME = (.error (.reservedUser ADMIN_USERNAME), st) ∧
    deleteUser listing cfg st GUEST_USERNAME = (.error (.reservedUser GUEST_USERNAME), st) := by
  refine ⟨?_, ?_, ?_, ?_⟩ <;> simp [addUser, deleteUser, hadm, hgst, hgrp]

/-- Witness for C4 at the seeded concrete state. -/
theorem c4_witness :
    addUser listing1 cfg0 seededState ADMIN_USERNAME "x" ADMIN_GROUP_NAME
      = (.error (.duplicateUser ADMIN_USERNAME), seededState) ∧
    addUser listing1 cfg0 seededState GUEST_USERNAME "x" ADMIN_GROUP_NAME
      = (.error (.duplicateUser GUEST_USERNAME), seededState) ∧
    deleteUser listing1 cfg0 seededState ADMIN_USERNAME
      = (.error (.reservedUser ADMIN_USERNAME), seededState) ∧
    deleteUser listing1 cfg0 seededState GUEST_USERNAME
      = (.error (.reservedUser GUEST_USERNAME), seededState) :=
  c4_reserved_identity_protection listing1 cfg0 seededState "x" ADMIN_GROUP_NAME
    (by decide) (by decide) (by decide)

/-- C6 counterexample: for the reserved group name, `_add_group` with a
role absent from the catalog fails with `ReservedIdentifier`, not with
`InvalidRole` — the reserved-name check runs first, so the claim's
universal quantification over group names fails. -/
theorem c6_counterexample :
    ALL_ROLES.contains "bogus" = false ∧
    addGroup listing1 cfg0 initState ADMIN_GROUP_NAME ["bogus"]
      = (.error (.reservedGroup ADMIN_GROUP_NAME), initState) ∧
    (addGroup listing1 cfg0 initState ADMIN_GROUP_NAME ["bogus"]).1
      ≠ .error (.invalidRole ["bogus"]) := by decide

/-- C6 amended: for every non-reserved group name, if any supplied role is
absent from the Role Catalog, `_add_group` fails with `InvalidRole`
carrying exactly the list of all absent roles, and the state — in
particular the group map — is unchanged. -/
theorem c6_invalid_roles_amended (listing : List FileInfo) (cfg : Config)
    (st : CharmState) (groupname : String) (roles : List String)
    (h₁ : groupname ≠ ADMIN_GROUP_NAME) (h₂ : groupname ≠ GUEST_GROUP_NAME)
    (h₃ : roles.filter (fun role => ! ALL_ROLES.contains role) ≠ []) :
    addGroup listing cfg st groupname roles
      = (.error (.invalidRole (roles.filter (fun role => ! ALL_ROLES.contains role))), st) := by
  have hres : ¬ (groupname = ADMIN_GROUP_NAME ∨ groupname = GUEST_GROUP_NAME) := by
    rintro (h | h)
    · exact h₁ h
    · exact h₂ h
  unfold addGroup
  dsimp only
  rw [if_neg hres, if_pos h₃]

/-- Witness for C6's amended theorem: the spec's own scenario
`addGroup("qa", ["viewer","bogus"])` fails with `InvalidRole ["bogus"]`. -/
theorem c6_amended_witness :
    addGroup listing1 cfg0 initState "qa" ["viewer", "bogus"]
      = (.error (.invalidRole ["bogus"]), initState) := by
  have h := c6_invalid_roles_amended listing1 cfg0 initState "qa" ["viewer", "bogus"]
    (by decide) (by decide) (by decide)
  simpa using h

/-- When the karaf folder resolves, the state `_configure_users_and_groups`
leaves behind is the input state with the two convergence steps applied,
whether or not the credentials file was pushed. -/
theorem configure_snd_of_ok (listing : List FileInfo) (cfg : Config) (st : CharmState)
    (f : String) (hf : getApacheKarafFolderPath listing = .ok f) :
    (configureUsersAndGroups listing cfg st).2
      = { st with users := convergeUsers cfg st.users, groups := convergeGroups st.groups } := by
  unfold configureUsersAndGroups
  rw [hf]
  dsimp only
  split <;> rfl

/-- C3 counterexample: after one `_configure_users_and_groups` pass with
`enable-guest=false` from the fresh state, the guest user is absent but the
guest group is present — `DEFAULT_GROUPS` (which includes the guest group)
is seeded unconditionally, so the claim's "guest group absent" part
fails. -/
theorem c3_counterexample :
    cfg0.enableGuest = false ∧
    dictContains (configureUsersAndGroups listing1 cfg0 initState).2.users
      GUEST_USERNAME = false ∧
    dictContains (configureUsersAndGroups listing1 cfg0 initState).2.groups
      GUEST_GROUP_NAME = true := by decide

/-- C3 amended: from an empty credential store, a pass with
`enable-guest=false` seeds exactly the admin user (no guest user) and both
default groups (including the guest group); a second pass with
`enable-guest=true` adds exactly the guest user, leaving the admin user
entry (with its original password) and both group entries unchanged. -/
theorem c3_guest_convergence_amended (listing : List FileInfo) (f : String)
    (hf : getApacheKarafFolderPath listing = .ok f)
    (cfg₁ cfg₂ : Config) (h₁ : cfg₁.enableGuest = false) (h₂ : cfg₂.enableGuest = true)
    (st₀ : CharmState) (hu : st₀.users = []) (hg : st₀.groups = []) :
    (configureUsersAndGroups listing cfg₁ st₀).2.users = [adminUser cfg₁] ∧
    dictContains (configureUsersAndGroups listing cfg₁ st₀).2.users GUEST_USERNAME = false ∧
    (configureUsersAndGroups listing cfg₁ st₀).2.groups = DEFAULT_GROUPS ∧
    (configureUsersAndGroups listing cfg₂
        (configureUsersAndGroups listing cfg₁ st₀).2).2.users
      = [adminUser cfg₁, guestUser cfg₂] ∧
    (configureUsersAndGroups listing cfg₂
        (configureUsersAndGroups listing cfg₁ st₀).2).2.groups
      = DEFAULT_GROUPS := by
  have hu1 : convergeUsers cfg₁ [] = [adminUser cfg₁] := by
    simp [convergeUsers, dictContains, dictUpdate, adminUser, h₁]
  have hg1 : convergeGroups [] = DEFAULT_GROUPS := by
    simp [convergeGroups, dictContains, dictUpdate, DEFAULT_GROUPS,
      ADMIN_GROUP_NAME, GUEST_GROUP_NAME]
  have hu2 : convergeUsers cfg₂ [adminUser cfg₁] = [adminUser cfg₁, guestUser cfg₂] := by
    simp [convergeUsers, dictContains, dictUpdate, adminUser, guestUser, h₂,
      ADMIN_USERNAME, GUEST_USERNAME]
  have hg2 : convergeGroups DEFAULT_GROUPS = DEFAULT_GROUPS := by
    simp [convergeGroups, dictContains, DEFAULT_GROUPS, ADMIN_GROUP_NAME, GUEST_GROUP_NAME]
  have hs1 : (configureUsersAndGroups listing cfg₁ st₀).2
      = { st₀ with users := [adminUser cfg₁], groups := DEFAULT_GROUPS } := by
    rw [configure_snd_of_ok listing cfg₁ st₀ f hf, hu, hg, hu1, hg1]
  have hs2 : (configureUsersAndGroups listing cfg₂
      (configureUsersAndGroups listing cfg₁ st₀).2).2
      = { st₀ with users := [adminUser cfg₁, guestUser cfg₂], groups := DEFAULT_GROUPS } := by
    rw [hs1, configure_snd_of_ok listing cfg₂ _ f hf]
    dsimp only
    rw [hu2, hg2]
  refine ⟨by rw [hs1], ?_, by rw [hs1], by rw [hs2], by rw [hs2]⟩
  rw [hs1]
  simp [dictContains, adminUser, ADMIN_USERNAME, GUEST_USERNAME]

/-- Witness for C3's amended theorem at concrete inputs. -/
theorem c3_amended_witness :
    (configureUsersAndGroups listing1 cfg0 initState).2.users = [adminUser cfg0] ∧
    dictContains (configureUsersAndGroups listing1 cfg0 initState).2.users
      GUEST_USERNAME = false ∧
    (configureUsersAndGroups listing1 cfg0 initState).2.groups = DEFAULT_GROUPS ∧
    (configureUsersAndGroups listing1 cfg1
        (configureUsersAndGroups listing1 cfg0 initState).2).2.users
      = [adminUser cfg0, guestUser cfg1] ∧
    (configureUsersAndGroups listing1 cfg1
        (configureUsersAndGroups listing1 cfg0 initState).2).2.groups
      = DEFAULT_GROUPS :=
  c3_guest_convergence_amended listing1 "apache-karaf-4.2.8" (by decide) cfg0 cfg1
    (by decide) (by decide) initState (by decide) (by decide)

/-- C8: role parsing maps `"viewer,admin"` to `["viewer","admin"]`; empty
or non-string input fails with `InvalidInput`; and any non-empty string
input containing a non-alphanumeric token fails with `InvalidRole` — a
purely syntactic check (`parseRoles` never consults `ALL_ROLES`). -/
theorem c8_parse_roles :
    parseRoles (.str "viewer,admin") = .ok ["viewer", "admin"] ∧
    parseRoles (.str "") = .error .invalidInput ∧
    parseRoles .notStr = .error .invalidInput ∧
    ∀ s : String, s ≠ "" →
      (∃ r ∈ (splitComma s.data).map (fun l => String.mk l), pyIsAlnum r = false) →
      ∃ r, pyIsAlnum r = false ∧ r ∈ (splitComma s.data).map (fun l => String.mk l) ∧
        parseRoles (.str s) = .error (.invalidRole r) := by
  refine ⟨by decide, by decide, by decide, ?_⟩
  intro s hs hex
  have hsome : (((splitComma s.data).map (fun l => String.mk l)).find?
      (fun r => ! pyIsAlnum r)).isSome := by
    rw [List.find?_isSome]
    obtain ⟨r, hr, hr2⟩ := hex
    exact ⟨r, hr, by simp [hr2]⟩
  obtain ⟨r, hfind⟩ := Option.isSome_iff_exists.mp hsome
  refine ⟨r, ?_, List.mem_of_find?_eq_some hfind, ?_⟩
  · simpa using List.find?_some hfind
  · simp [parseRoles, hs, hfind]

/-- Witness for C8's universal part at the spec's own input `"vi ewer"`. -/
theorem c8_witness :
    ∃ r, pyIsAlnum r = false ∧
      r ∈ (splitComma "vi ewer".data).map (fun l => String.mk l) ∧
      parseRoles (.str "vi ewer") = .error (.invalidRole r) :=
  c8_parse_roles.2.2.2 "vi ewer" (by decide) ⟨"vi ewer", by decide, by decide⟩

/-- C9: the rendered credentials text contains, for every user entry, the
full line `username = password,_g_:groupname`, and for every group entry
the full line `_g_\:groupname = role1,role2,...` (roles joined by commas
in stored order with no trailing separator); being a pure function of the
two maps, the output is deterministic given identical contents and
order. -/
theorem c9_render_contains_lines (users : List (String × UserData))
    (groups : List (String × List String)) (u : String) (d : UserData)
    (g : String) (roles : List String) :
    ((u, d) ∈ users → strInfix (userLine u d) (render users groups)) ∧
    ((g, roles) ∈ groups → strInfix (groupLine g roles) (render users groups)) := by
  constructor
  · intro hm
    obtain ⟨p, q, hpq⟩ :=
      strConcat_infix_of_mem (fun pr => userLine pr.1 pr.2) users (u, d) hm
    refine ⟨"\n" ++ p,
      q ++ ("\n\n" ++ strConcat (groups.map (fun pr => groupLine pr.1 pr.2))), ?_⟩
    simp only [render, hpq, str_append_assoc]
  · intro hm
    obtain ⟨p, q, hpq⟩ :=
      strConcat_infix_of_mem (fun pr => groupLine pr.1 pr.2) groups (g, roles) hm
    refine ⟨"\n" ++ strConcat (users.map (fun pr => userLine pr.1 pr.2)) ++ ("\n\n" ++ p),
      q, ?_⟩
    simp only [render, hpq, str_append_assoc]

/-- Witness for C9 at the spec's round-trip scenario: users
`{"alice": {password:"p", group:"g1"}}`, groups `{"g1": ["viewer"]}`. -/
theorem c9_witness :
    strInfix (userLine "alice" { group := "g1", password := "p" })
      (render [("alice", { group := "g1", password := "p" })] [("g1", ["viewer"])]) ∧
    strInfix (groupLine "g1" ["viewer"])
      (render [("alice", { group := "g1", password := "p" })] [("g1", ["viewer"])]) :=
  ⟨(c9_render_contains_lines [("alice", { group := "g1", password := "p" })]
      [("g1", ["viewer"])] "alice" { group := "g1", password := "p" } "g1" ["viewer"]).1
      (by simp),
    (c9_render_contains_lines [("alice", { group := "g1", password := "p" })]
      [("g1", ["viewer"])] "alice" { group := "g1", password := "p" } "g1" ["viewer"]).2
      (by simp)⟩

/-- Seeding never rewrites an existing admin entry: when the admin user is
already present, `convergeUsers` preserves its stored entry (only a guest
entry may be appended). -/
theorem convergeUsers_preserves_admin (cfg : Config) (users : List (String × UserData))
    (hadm : dictContains users ADMIN_USERNAME = true) :
    dictLookup (convergeUsers cfg users) ADMIN_USERNAME = dictLookup users ADMIN_USERNAME := by
  unfold convergeUsers
  rw [if_pos hadm]
  dsimp only
  split
  · rename_i hguard
    have hco : cfg.enableGuest = true ∧ dictContains users GUEST_USERNAME = false := by
      simpa using hguard
    rw [dictUpdate, if_neg (by simp [guestUser, hco.2])]
    exact dictLookup_append_of_contains users _ ADMIN_USERNAME hadm
  · rfl

/-- C10: when the admin user is already stored, a users/groups convergence
pass under any configuration (in particular a changed `admin-password`)
leaves the stored admin entry — password included — unchanged; the pushed
credentials file is rendered exactly from the stored maps (so it carries
the old password); yet a remote activation call issued afterwards
authenticates with the newly configured password. -/
theorem c10_admin_password_frame (listing : List FileInfo) (cfg : Config) (st : CharmState)
    (hadm : dictContains st.users ADMIN_USERNAME = true) :
    dictLookup (configureUsersAndGroups listing cfg st).2.users ADMIN_USERNAME
      = dictLookup st.users ADMIN_USERNAME ∧
    (∀ content, (configureUsersAndGroups listing cfg st).1 = .ok (some content) →
      content = render (configureUsersAndGroups listing cfg st).2.users
        (configureUsersAndGroups listing cfg st).2.groups) ∧
    (∀ catalog name r st', activateApp catalog cfg st name = (.ok (some r), st') →
      r.authUser = ADMIN_USERNAME ∧ r.authPassword = cfg.adminPassword) := by
  refine ⟨?_, ?_, ?_⟩
  · cases hk : getApacheKarafFolderPath listing with
    | error e =>
      unfold configureUsersAndGroups
      rw [hk]
    | ok f =>
      rw [configure_snd_of_ok listing cfg st f hk]
      exact convergeUsers_preserves_admin cfg st.users hadm
  · intro content hc
    cases hk : getApacheKarafFolderPath listing with
    | error e =>
      unfold configureUsersAndGroups at hc
      rw [hk] at hc
      exact absurd hc (by simp)
    | ok f =>
      unfold configureUsersAndGroups at hc ⊢
      rw [hk] at hc ⊢
      dsimp only at hc ⊢
      split at hc
      · rename_i hcond
        rw [if_pos hcond]
        simpa using hc.symm
      · exact absurd hc (by simp)
  · intro catalog name r st' h
    unfold activateApp at h
    dsimp only at h
    split at h
    · exact absurd h (by simp)
    split at h
    · exact absurd h (by simp)
    split at h
    · rw [Prod.mk.injEq] at h
      obtain ⟨h1, -⟩ := h
      rw [Except.ok.injEq, Option.some.injEq] at h1
      rw [← h1]
      exact ⟨rfl, rfl⟩
    · exact absurd h (by simp)

/-- Witness for C10: the seeded state holds the old password `"pass1"`;
reconfiguring with `cfg1` (password `"pass2"`) leaves the admin lookup
unchanged, while the activation call for the GUI application carries the
new password. -/
theorem c10_witness :
    dictLookup (configureUsersAndGroups listing1 cfg1 seededState).2.users ADMIN_USERNAME
      = dictLookup seededState.users ADMIN_USERNAME ∧
    ({ isPost := true, app := GUI_APP, authUser := ADMIN_USERNAME,
        authPassword := cfg1.adminPassword } : RemoteCall).authUser = ADMIN_USERNAME ∧
    ({ isPost := true, app := GUI_APP, authUser := ADMIN_USERNAME,
        authPassword := cfg1.adminPassword } : RemoteCall).authPassword = cfg1.adminPassword := by
  have h := c10_admin_password_frame listing1 cfg1 seededState (by decide)
  exact ⟨h.1, h.2.2 [GUI_APP] GUI_APP
    { isPost := true, app := GUI_APP, authUser := ADMIN_USERNAME,
      authPassword := cfg1.adminPassword }
    { seededState with apps := seededState.apps ++ [GUI_APP] } (by decide)⟩

end Onos
